import Mathlib

/-!
Shallow embedding of the order-lifecycle and payment-reconciliation core of
the canteen bot (src/app.py and src/db_manager.py).

Modelling conventions:
- SQLite REAL amounts are modelled as rationals, TEXT columns as String,
  NULLable columns as Option.
- created_at is abstracted to a day index (created_day); updated_at
  timestamps are not modelled (they carry no logic).
- Each SQL UPDATE ... WHERE id = ? is modelled as a map over the rows that
  match the id, with the rowcount as the number of matching rows; SELECT
  fetchone is List.find?.
- Wall-clock minute and second are explicit parameters where the code reads
  the clock; the calendar day is an explicit parameter where the code uses
  CURRENT_TIMESTAMP.
- Messaging, QR-image generation and logging are I/O with no effect on the
  database and are dropped.
-/

namespace Canteen

/-- Row of the menu table (id, name, price REAL, available). -/
structure MenuItem where
  id : Nat
  name : String
  price : ℚ
  available : Bool
deriving DecidableEq, Repr

/-- One cart line as stored in the orders.items JSON: a snapshot
of the menu data at add time plus the chosen quantity. -/
structure OrderItem where
  id : Nat
  name : String
  price : ℚ
  qty : Int
deriving DecidableEq, Repr

/-- Row of the orders table. -/
structure Order where
  id : Nat
  student_phone : String
  items : List OrderItem
  total_amount : ℚ
  status : String
  payment_link : Option String
  pickup_code : Option String
  razorpay_order_id : Option String
  service_type : Option String
  created_day : Nat
deriving DecidableEq, Repr

/-- Row of the users table (per-customer session). -/
structure User where
  id : String
  phone_number : Option String
  session_state : String
  current_order_id : Option Nat
deriving DecidableEq, Repr

/-- The database: the three tables plus the sqlite_sequence entry for the
orders table (AUTOINCREMENT bookkeeping). -/
structure DB where
  menu : List MenuItem
  orders : List Order
  seq : Nat
  users : List User
deriving DecidableEq, Repr

/-- UPDATE orders SET ... WHERE id = ?: apply f to every row whose id
matches, and return the rowcount (number of matching rows). -/
def updateWhereId (rows : List Order) (oid : Nat) (f : Order → Order) :
    List Order × Nat :=
  (rows.map fun o => if o.id = oid then f o else o,
   (rows.filter fun o => o.id == oid).length)

/-- SELECT * FROM orders WHERE id = ? (fetchone). -/
def rowFind (rows : List Order) (oid : Nat) : Option Order :=
  rows.find? fun o => o.id == oid

/-- db_manager.get_order_details. -/
def get_order_details (db : DB) (oid : Nat) : Option Order :=
  rowFind db.orders oid

/-- Largest rowid currently present in the orders table. -/
def maxOrderId (rows : List Order) : Nat :=
  rows.foldr (fun o a => Nat.max o.id a) 0

/-- The rowid AUTOINCREMENT picks for the next insert: one more than the
larger of the sqlite_sequence entry and the largest existing rowid. -/
def nextOrderId (db : DB) : Nat :=
  Nat.max db.seq (maxOrderId db.orders) + 1

/-- db_manager.create_order: INSERT INTO orders (student_phone, items,
total_amount, status); returns cursor.lastrowid. The sqlite_sequence entry
is advanced to the new rowid. -/
def create_order (db : DB) (phone : String) (items : List OrderItem)
    (total : ℚ) (status : String) (day : Nat) : Nat × DB :=
  let oid := nextOrderId db
  (oid,
   { db with
       orders := db.orders ++
         [{ id := oid, student_phone := phone, items := items,
            total_amount := total, status := status, payment_link := none,
            pickup_code := none, razorpay_order_id := none,
            service_type := none, created_day := day }],
       seq := oid })

/-- db_manager.update_order_status: UPDATE orders SET status = ? WHERE
id = ?; returns cursor.rowcount > 0. There is no condition on the current
status. -/
def update_order_status (db : DB) (oid : Nat) (st : String) : DB × Bool :=
  let r := updateWhereId db.orders oid fun o => { o with status := st }
  ({ db with orders := r.1 }, 0 < r.2)

/-- db_manager.update_razorpay_details: stores the payment link id and URL
on the order row (unconditional write by id). -/
def update_razorpay_details (db : DB) (oid : Nat) (rid link : String) :
    DB × Bool :=
  let r := updateWhereId db.orders oid fun o =>
    { o with razorpay_order_id := some rid, payment_link := some link }
  ({ db with orders := r.1 }, 0 < r.2)

/-- db_manager.update_order_cart: overwrites the items JSON and the total
(unconditional write by id). -/
def update_order_cart (db : DB) (oid : Nat) (items : List OrderItem)
    (total : ℚ) : DB × Bool :=
  let r := updateWhereId db.orders oid fun o =>
    { o with items := items, total_amount := total }
  ({ db with orders := r.1 }, 0 < r.2)

/-- db_manager.update_order_service_type (unconditional write by id). -/
def update_order_service_type (db : DB) (oid : Nat) (st : String) :
    DB × Bool :=
  let r := updateWhereId db.orders oid fun o =>
    { o with service_type := some st }
  ({ db with orders := r.1 }, 0 < r.2)

/-- db_manager.update_order_pickup_code (unconditional write by id). -/
def update_order_pickup_code (db : DB) (oid : Nat) (code : String) :
    DB × Bool :=
  let r := updateWhereId db.orders oid fun o =>
    { o with pickup_code := some code }
  ({ db with orders := r.1 }, 0 < r.2)

/-- db_manager.delete_all_orders_up_to_date: DELETE FROM orders WHERE
created_at < cutoff; when at least one row was deleted, the sqlite_sequence
entry for the orders table is reset to 0. Returns the deleted count. -/
def delete_all_orders_up_to_date (db : DB) (cutoffDay : Nat) : Nat × DB :=
  let deleted := (db.orders.filter fun o => o.created_day < cutoffDay).length
  (deleted,
   { db with
       orders := db.orders.filter fun o => !(o.created_day < cutoffDay : Bool),
       seq := if 0 < deleted then 0 else db.seq })

/-- SELECT * FROM menu WHERE id = ? AND available = 1. -/
def get_menu_item (db : DB) (iid : Nat) : Option MenuItem :=
  db.menu.find? fun m => m.id == iid && m.available

/-- db_manager.update_menu_item: UPDATE menu SET price = ? WHERE id = ?.
The pre-check on existence only affects the returned message. -/
def update_menu_item (db : DB) (iid : Nat) (p : ℚ) : DB :=
  { db with menu := db.menu.map fun m =>
      if m.id = iid then { m with price := p } else m }

/-- SELECT from users WHERE id = ? (fetchone). -/
def findUser (db : DB) (uid : String) : Option User :=
  db.users.find? fun u => u.id == uid

/-- A fresh users row as created by INSERT OR IGNORE (id, session_state
initial). -/
def newUser (uid : String) : User :=
  { id := uid, phone_number := none, session_state := "initial",
    current_order_id := none }

/-- INSERT OR IGNORE INTO users (id, session_state) VALUES (?, initial). -/
def ensureUser (users : List User) (uid : String) : List User :=
  if users.any fun u => u.id == uid then users else users ++ [newUser uid]

/-- db_manager.set_session_state: ensure the row exists, then UPDATE users
SET session_state = ?, current_order_id = ? WHERE id = ?. -/
def set_session_state (db : DB) (uid : String) (st : String)
    (oid : Option Nat) : DB :=
  { db with users := (ensureUser db.users uid).map fun u =>
      if u.id = uid then { u with session_state := st, current_order_id := oid }
      else u }

/-- db_manager.get_session_state. The INSERT OR IGNORE it performs first
creates at most a fresh initial row and never changes the value read back,
so the read is modelled as pure. -/
def get_session_state (db : DB) (uid : String) : String :=
  match findUser db uid with
  | some u => u.session_state
  | none => "initial"

/-- db_manager.get_session_order_id. -/
def get_session_order_id (db : DB) (uid : String) : Option Nat :=
  (findUser db uid).bind fun u => u.current_order_id

/-- db_manager.get_user_phone: returns the stored number, with the Python
truthiness check mapping an empty string to None. -/
def get_user_phone (db : DB) (uid : String) : Option String :=
  match findUser db uid with
  | some u =>
    match u.phone_number with
    | some p => if p.isEmpty then none else some p
    | none => none
  | none => none

/-- db_manager.update_user_phone: reads the current state and order id
(defaults initial and NULL), then INSERT OR REPLACE the whole row with the
new phone number. -/
def update_user_phone (db : DB) (uid phone : String) : DB :=
  let st := match findUser db uid with
            | some u => u.session_state
            | none => "initial"
  let oid := (findUser db uid).bind fun u => u.current_order_id
  { db with users :=
      (db.users.filter fun u => !(u.id == uid)) ++
      [{ id := uid, phone_number := some phone, session_state := st,
         current_order_id := oid }] }

/-! Handlers from src/app.py. -/

/-- Two-digit zero-padded rendering, as produced by strftime for the minute
and second fields. -/
def pad2 (n : Nat) : String :=
  if n < 10 then "0" ++ toString n else toString n

/-- The verification code built in generate_pickup_qr_code: the decimal
order id followed by the current minute and second (strftime percent-M
percent-S). The QR image and file path are I/O and not modelled. -/
def verification_code (oid : Nat) (m s : Nat) : String :=
  toString oid ++ pad2 m ++ pad2 s

/-- app.handle_successful_payment: fetch the order (return if missing), set
status to paid, compute a fresh verification code from the clock, overwrite
the stored pickup code, and move the session to pickup_ready. No condition
on the current status is checked anywhere. Notifications are I/O. -/
def handle_successful_payment (db : DB) (oid : Nat) (chat : String)
    (m s : Nat) : DB :=
  match get_order_details db oid with
  | none => db
  | some _ =>
    let db1 := (update_order_status db oid "paid").1
    let db2 := (update_order_pickup_code db1 oid (verification_code oid m s)).1
    set_session_state db2 chat "pickup_ready" (some oid)

/-- app.start_menu_flow, database effect only: reuse the session order if it
is still pending, otherwise create a fresh pending order; then move the
session to ordering_item. -/
def start_menu_flow (db : DB) (uid : String) (day : Nat) : DB :=
  let coid0 := get_session_order_id db uid
  let coid :=
    match coid0 with
    | some oid =>
      match get_order_details db oid with
      | some o => if o.status ≠ "pending" then none else some oid
      | none => some oid
    | none => none
  match coid with
  | some oid => set_session_state db uid "ordering_item" (some oid)
  | none =>
    let r := create_order db uid [] 0 "pending" day
    set_session_state r.2 uid "ordering_item" (some r.1)

/-- app.add_item_to_cart_and_prompt: on the failure guard (missing item,
no session order, or non-positive quantity) restart the menu flow;
otherwise append a price-snapshotted line, add price times quantity to the
running total, write the cart back, and move the session to
awaiting_add_more. -/
def add_item_to_cart_and_prompt (db : DB) (uid : String) (iid : Nat)
    (q : Int) (day : Nat) : DB :=
  match get_menu_item db iid with
  | none => start_menu_flow db uid day
  | some it =>
    match get_session_order_id db uid with
    | none => start_menu_flow db uid day
    | some oid =>
      if q ≤ 0 then start_menu_flow db uid day
      else
        let od := get_order_details db oid
        let current_items := match od with | some o => o.items | none => []
        let current_total : ℚ :=
          match od with | some o => o.total_amount | none => 0
        let new_items := current_items ++
          [{ id := it.id, name := it.name, price := it.price, qty := q }]
        let new_total := current_total + it.price * (q : ℚ)
        let db1 := (update_order_cart db oid new_items new_total).1
        set_session_state db1 uid "awaiting_add_more" (some oid)

/-- Value of the digit characters of a decimal literal. -/
def digitsToNat (cs : List Char) : Nat :=
  cs.foldl (fun a c => a * 10 + (c.toNat - 48)) 0

/-- Characters of Python str.strip(): drop leading and trailing whitespace. -/
def stripChars (cs : List Char) : List Char :=
  ((cs.dropWhile fun c => c.isWhitespace).reverse.dropWhile
    fun c => c.isWhitespace).reverse

/-- Python str.strip(). -/
def pyStrip (s : String) : String := ⟨stripChars s.data⟩

/-- Python str.split(sep) for a one-character separator. -/
def splitChar (sep : Char) : List Char → List (List Char)
  | [] => [[]]
  | c :: rest =>
    let r := splitChar sep rest
    if c = sep then [] :: r
    else
      match r with
      | [] => [[c]]
      | g :: gs => (c :: g) :: gs

/-- Python s.split(sep)[-1]: the last field of the split. -/
def splitLast (s : String) (sep : Char) : String :=
  ⟨(splitChar sep s.data).getLastD []⟩

/-- Python int() applied to a string: optional sign followed by at least one
decimal digit, otherwise ValueError (None). -/
def pyInt (s : String) : Option Int :=
  match s.data with
  | [] => none
  | c :: rest =>
    if c = '-' then
      if rest ≠ [] ∧ rest.all (fun d => d.isDigit) then
        some (-(digitsToNat rest : Int))
      else none
    else if c = '+' then
      if rest ≠ [] ∧ rest.all (fun d => d.isDigit) then
        some (digitsToNat rest : Int)
      else none
    else if (c :: rest).all (fun d => d.isDigit) then
      some (digitsToNat (c :: rest) : Int)
    else none

/-- The awaiting_typed_quantity branch of app.handle_incoming_message.
Inside the try block the code parses the typed quantity, then the item id
held in the state string; an out-of-range quantity re-prompts and returns
early, a successful parse adds the item; a ValueError from either int()
falls to the handler after the try block, which sets the session to
awaiting_add_more before returning. -/
def typed_quantity_branch (db : DB) (uid text : String) (day : Nat) : DB :=
  let state := get_session_state db uid
  match pyInt (pyStrip text) with
  | none => set_session_state db uid "awaiting_add_more" (get_session_order_id db uid)
  | some q =>
    match pyInt (splitLast state '_') with
    | none => set_session_state db uid "awaiting_add_more" (get_session_order_id db uid)
    | some iid =>
      if q ≤ 0 ∨ 100 < q then db
      else
        let db1 := add_item_to_cart_and_prompt db uid iid.toNat q day
        set_session_state db1 uid "awaiting_add_more" (get_session_order_id db1 uid)

/-- The cancel_order branch of app.handle_inline_callbacks: cancel whatever
order the session currently references (no condition on its status), then
reset the session. -/
def cancel_order_callback (db : DB) (uid : String) : DB :=
  let db1 :=
    match get_session_order_id db uid with
    | some oid => (update_order_status db oid "cancelled").1
    | none => db
  set_session_state db1 uid "initial" none

/-- The delivered branch of app.handle_inline_callbacks. -/
def delivered_callback (db : DB) (oid : Nat) : DB :=
  (update_order_status db oid "delivered").1

/-- Python truthiness of a nullable TEXT column. -/
def truthy : Option String → Bool
  | none => false
  | some s => !s.isEmpty

/-- Outcome of generate_razorpay_payment_link: a created link, a
(None, None) return, or a raised BadRequestError or ConnectionError. -/
inductive GwResult where
  | ok (rid url : String)
  | errNone
  | exc
deriving DecidableEq, Repr

/-- The confirm_pay branch of app.handle_inline_callbacks (the
get-or-create-link path). Returns the new database, the payment link shown
to the customer, and the number of link-creation calls made to the gateway.
An existing razorpay_order_id and payment_link pair is reused without any
gateway call; only when one is absent is the gateway called, the details
stored (only if razorpay_order_id was absent), the status set to
payment_pending and the session moved to waiting_for_payment. Gateway
failure resets the session. -/
def confirm_pay (db : DB) (uid : String) (gw : GwResult) (day : Nat) :
    DB × Option String × Nat :=
  match get_session_order_id db uid with
  | none => (start_menu_flow db uid day, none, 0)
  | some coid =>
    match get_order_details db coid with
    | none => (start_menu_flow db uid day, none, 0)
    | some order =>
      if (get_user_phone db uid).isNone then
        (set_session_state db uid "awaiting_phone_number" (some coid), none, 0)
      else if truthy order.razorpay_order_id && truthy order.payment_link then
        let db2 := (update_order_status db coid "payment_pending").1
        (set_session_state db2 uid "waiting_for_payment" (some coid),
         order.payment_link, 0)
      else
        match gw with
        | .ok rid url =>
          if !rid.isEmpty && !url.isEmpty then
            let db1 :=
              if !truthy order.razorpay_order_id then
                (update_razorpay_details db coid rid url).1
              else db
            let db2 := (update_order_status db1 coid "payment_pending").1
            (set_session_state db2 uid "waiting_for_payment" (some coid),
             some url, 1)
          else
            (set_session_state db uid "initial" none, none, 1)
        | .errNone => (set_session_state db uid "initial" none, none, 1)
        | .exc => (set_session_state db uid "initial" none, none, 1)

/-- The JSON event envelope as far as app.razorpay_webhook reads it: the
event field, and the payload.payment.entity.order_id field when present.
None stands for a payload whose decoding or event access raises. -/
structure ParsedEvent where
  event_type : String
  payment_order_id : Option String
deriving DecidableEq, Repr

/-- The notes of the gateway order fetched back from the payment gateway. -/
structure RzpOrder where
  notes_internal_order_id : Option String
  notes_telegram_chat_id : Option String
deriving DecidableEq, Repr

/-- app.razorpay_webhook: sigValid abstracts signature verification of the
raw body against the shared secret; parsed abstracts json.loads plus the
event-field access; fetch abstracts the gateway order fetch (None = the
call raised). Returns the HTTP status code and whether the payment handler
thread was started. Any exception while resolving the event (parse error,
fetch failure, missing notes key, non-numeric internal id) is caught and
answered with 500. -/
def razorpay_webhook (sigValid : Bool) (parsed : Option ParsedEvent)
    (fetch : String → Option RzpOrder) : Nat × Bool :=
  if !sigValid then (400, false)
  else
    match parsed with
    | none => (500, false)
    | some ev =>
      if ev.event_type = "payment.captured" then
        match ev.payment_order_id with
        | none => (500, false)
        | some rid =>
          match fetch rid with
          | none => (500, false)
          | some ro =>
            match ro.notes_internal_order_id with
            | none => (500, false)
            | some i =>
              match ro.notes_telegram_chat_id with
              | none => (500, false)
              | some _ =>
                match pyInt i with
                | some _ => (200, true)
                | none => (500, false)
      else (200, false)

/-- The request-driven events that touch the orders store during a day of
operation: order creation (start of browsing), payment webhooks, customer
cancel taps, operator delivered taps, confirm-and-pay taps, cart additions,
menu price updates, menu taps and typed quantity messages. -/
inductive Event where
  | create (phone : String) (day : Nat)
  | webhook (oid : Nat) (chat : String) (m s : Nat)
  | cancelTap (uid : String)
  | deliveredTap (oid : Nat)
  | confirmTap (uid : String) (gw : GwResult) (day : Nat)
  | addItem (uid : String) (iid : Nat) (q : Int) (day : Nat)
  | priceUpdate (iid : Nat) (p : ℚ)
  | menuTap (uid : String) (day : Nat)
  | typedQty (uid text : String) (day : Nat)
deriving DecidableEq, Repr

/-- Dispatch of one inbound event to its handler. -/
def applyEvent (db : DB) : Event → DB
  | .create phone day => (create_order db phone [] 0 "pending" day).2
  | .webhook oid chat m s => handle_successful_payment db oid chat m s
  | .cancelTap uid => cancel_order_callback db uid
  | .deliveredTap oid => delivered_callback db oid
  | .confirmTap uid gw day => (confirm_pay db uid gw day).1
  | .addItem uid iid q day => add_item_to_cart_and_prompt db uid iid q day
  | .priceUpdate iid p => update_menu_item db iid p
  | .menuTap uid day => start_menu_flow db uid day
  | .typedQty uid text day => typed_quantity_branch db uid text day

/-- A finite sequence of inbound events, handled in arrival order. -/
def applyEvents (db : DB) (es : List Event) : DB :=
  es.foldl applyEvent db

/-- Sum of price times quantity over the stored cart lines. -/
def cartSum (items : List OrderItem) : ℚ :=
  (items.map fun it => it.price * (it.qty : ℚ)).sum

/-- The cart invariant for one order row: the stored total equals the sum
of the stored line snapshots (vacuously true if the row is absent). -/
def cartOk (db : DB) (oid : Nat) : Bool :=
  match get_order_details db oid with
  | some o => decide (o.total_amount = cartSum o.items)
  | none => true

/-! Helper lemmas about the embedding. -/

theorem find?_map_pres {α : Type} (g : α → α) (p : α → Bool)
    (h : ∀ a, p (g a) = p a) :
    ∀ l : List α, (l.map g).find? p = (l.find? p).map g := by
  intro l
  induction l with
  | nil => rfl
  | cons a t ih =>
    by_cases hpa : p a = true
    · have hga : p (g a) = true := by rw [h a]; exact hpa
      rw [List.map_cons, List.find?_cons_of_pos _ hga,
          List.find?_cons_of_pos _ hpa]
      rfl
    · have hfa : ¬ p a = true := hpa
      have hga : ¬ p (g a) = true := by rw [h a]; exact hfa
      rw [List.map_cons, List.find?_cons_of_neg _ hga,
          List.find?_cons_of_neg _ hfa, ih]

theorem rowFind_updateWhereId (rows : List Order) (oid : Nat)
    (f : Order → Order) (hf : ∀ o, (f o).id = o.id) (oid' : Nat) :
    rowFind (updateWhereId rows oid f).1 oid' =
      (rowFind rows oid').map fun o => if o.id = oid then f o else o := by
  unfold rowFind updateWhereId
  exact find?_map_pres _ _
    (fun o => by by_cases h : o.id = oid <;> simp [h, hf]) rows

theorem rowFind_some_id (rows : List Order) (oid : Nat) (o : Order)
    (h : rowFind rows oid = some o) : o.id = oid := by
  unfold rowFind at h
  have := List.find?_some h
  simpa using this

theorem rowFind_update_self (rows : List Order) (oid : Nat)
    (f : Order → Order) (hf : ∀ o, (f o).id = o.id) :
    rowFind (updateWhereId rows oid f).1 oid = (rowFind rows oid).map f := by
  rw [rowFind_updateWhereId rows oid f hf oid]
  cases h : rowFind rows oid with
  | none => rfl
  | some o =>
    show some (if o.id = oid then f o else o) = some (f o)
    rw [if_pos (rowFind_some_id rows oid o h)]

theorem rowFind_update_other (rows : List Order) (oid : Nat)
    (f : Order → Order) (hf : ∀ o, (f o).id = o.id) (oid' : Nat)
    (hne : oid' ≠ oid) :
    rowFind (updateWhereId rows oid f).1 oid' = rowFind rows oid' := by
  rw [rowFind_updateWhereId rows oid f hf oid']
  cases h : rowFind rows oid' with
  | none => rfl
  | some o =>
    show some (if o.id = oid then f o else o) = some o
    rw [if_neg (by rw [rowFind_some_id rows oid' o h]; exact hne)]

theorem rowcount_pos_iff (rows : List Order) (oid : Nat) :
    (0 < ((rows.filter fun o => o.id == oid).length)) ↔
      (rowFind rows oid).isSome := by
  rw [List.length_pos, Ne, List.filter_eq_nil_iff, rowFind, List.find?_isSome]
  push_neg
  simp

theorem rowFind_append (rows rows' : List Order) (oid : Nat) :
    rowFind (rows ++ rows') oid = (rowFind rows oid).or (rowFind rows' oid) := by
  unfold rowFind
  exact List.find?_append

theorem findUser_eq_of_users_eq (db db' : DB) (uid : String)
    (h : db.users = db'.users) : findUser db uid = findUser db' uid := by
  unfold findUser
  rw [h]

theorem findUser_set_session_state_self (db : DB) (uid st : String)
    (oid : Option Nat) :
    findUser (set_session_state db uid st oid) uid =
      some { (findUser db uid).getD (newUser uid) with
               session_state := st, current_order_id := oid } := by
  have hpres : ∀ u : User,
      (((if u.id = uid then
          { u with session_state := st, current_order_id := oid }
        else u) : User).id == uid) = (u.id == uid) := by
    intro u; by_cases h : u.id = uid <;> simp [h]
  unfold findUser set_session_state
  dsimp only
  rw [find?_map_pres
        (fun u => if u.id = uid then
          { u with session_state := st, current_order_id := oid } else u)
        (fun u => u.id == uid) hpres (ensureUser db.users uid)]
  unfold ensureUser
  by_cases hex : (db.users.any fun u => u.id == uid) = true
  · rw [if_pos hex]
    have hsome : (db.users.find? fun u => u.id == uid).isSome := by
      rw [List.find?_isSome]
      simpa using hex
    cases hfind : db.users.find? fun u => u.id == uid with
    | none => rw [hfind] at hsome; simp at hsome
    | some u =>
      have hid : u.id = uid := by
        have := List.find?_some hfind
        simpa using this
      simp [hid]
  · rw [if_neg hex]
    have hnone : (db.users.find? fun u => u.id == uid) = none := by
      rw [List.find?_eq_none]
      intro u hu hpu
      exact hex (List.any_eq_true.mpr ⟨u, hu, hpu⟩)
    rw [List.find?_append, hnone]
    have hsingle : (List.find? (fun u => u.id == uid) [newUser uid])
        = some (newUser uid) := by simp [newUser]
    rw [hsingle]
    simp [newUser, hnone]

theorem get_session_order_id_set_self (db : DB) (uid st : String)
    (oid : Option Nat) :
    get_session_order_id (set_session_state db uid st oid) uid = oid := by
  unfold get_session_order_id
  rw [findUser_set_session_state_self]
  rfl

theorem get_session_state_set_self (db : DB) (uid st : String)
    (oid : Option Nat) :
    get_session_state (set_session_state db uid st oid) uid = st := by
  unfold get_session_state
  rw [findUser_set_session_state_self]

theorem get_user_phone_set_session_state (db : DB) (uid st : String)
    (oid : Option Nat) :
    get_user_phone (set_session_state db uid st oid) uid =
      get_user_phone db uid := by
  unfold get_user_phone
  rw [findUser_set_session_state_self]
  cases h : findUser db uid with
  | none => simp [h, newUser]
  | some u => simp [h]

/-! Projection facts: which table each operation touches. -/

theorem users_update_order_status (db : DB) (oid : Nat) (st : String) :
    (update_order_status db oid st).1.users = db.users := rfl

theorem users_update_razorpay_details (db : DB) (oid : Nat)
    (rid link : String) :
    (update_razorpay_details db oid rid link).1.users = db.users := rfl

theorem users_update_order_cart (db : DB) (oid : Nat)
    (items : List OrderItem) (total : ℚ) :
    (update_order_cart db oid items total).1.users = db.users := rfl

theorem users_update_order_pickup_code (db : DB) (oid : Nat)
    (code : String) :
    (update_order_pickup_code db oid code).1.users = db.users := rfl

theorem orders_set_session_state (db : DB) (uid st : String)
    (oid : Option Nat) :
    (set_session_state db uid st oid).orders = db.orders := rfl

theorem orders_update_menu_item (db : DB) (iid : Nat) (p : ℚ) :
    (update_menu_item db iid p).orders = db.orders := rfl

theorem seq_set_session_state (db : DB) (uid st : String)
    (oid : Option Nat) :
    (set_session_state db uid st oid).seq = db.seq := rfl

theorem seq_update_order_status (db : DB) (oid : Nat) (st : String) :
    (update_order_status db oid st).1.seq = db.seq := rfl

theorem seq_update_razorpay_details (db : DB) (oid : Nat)
    (rid link : String) :
    (update_razorpay_details db oid rid link).1.seq = db.seq := rfl

theorem seq_update_order_cart (db : DB) (oid : Nat)
    (items : List OrderItem) (total : ℚ) :
    (update_order_cart db oid items total).1.seq = db.seq := rfl

theorem seq_update_order_pickup_code (db : DB) (oid : Nat) (code : String) :
    (update_order_pickup_code db oid code).1.seq = db.seq := rfl

theorem seq_update_menu_item (db : DB) (iid : Nat) (p : ℚ) :
    (update_menu_item db iid p).seq = db.seq := rfl

theorem seq_create_order (db : DB) (phone : String) (items : List OrderItem)
    (total : ℚ) (st : String) (day : Nat) :
    (create_order db phone items total st day).2.seq = nextOrderId db := rfl

theorem fst_create_order (db : DB) (phone : String) (items : List OrderItem)
    (total : ℚ) (st : String) (day : Nat) :
    (create_order db phone items total st day).1 = nextOrderId db := rfl

theorem seq_lt_nextOrderId (db : DB) : db.seq < nextOrderId db :=
  Nat.lt_succ_of_le (Nat.le_max_left _ _)

/-! The sqlite_sequence entry never decreases under any inbound event. -/

theorem seq_le_handle_successful_payment (db : DB) (oid : Nat)
    (chat : String) (m s : Nat) :
    db.seq ≤ (handle_successful_payment db oid chat m s).seq := by
  unfold handle_successful_payment
  simp only []
  split
  · exact Nat.le_refl _
  · rw [seq_set_session_state, seq_update_order_pickup_code,
        seq_update_order_status]

theorem seq_le_start_menu_flow (db : DB) (uid : String) (day : Nat) :
    db.seq ≤ (start_menu_flow db uid day).seq := by
  unfold start_menu_flow
  simp only []
  repeat' split
  all_goals
    try simp only [seq_set_session_state, seq_create_order]
  all_goals
    first
      | exact Nat.le_refl _
      | exact Nat.le_of_lt (seq_lt_nextOrderId db)

theorem seq_le_add_item (db : DB) (uid : String) (iid : Nat) (q : Int)
    (day : Nat) :
    db.seq ≤ (add_item_to_cart_and_prompt db uid iid q day).seq := by
  unfold add_item_to_cart_and_prompt
  simp only []
  repeat' split
  all_goals
    try simp only [seq_set_session_state, seq_update_order_cart]
  all_goals
    first
      | exact Nat.le_refl _
      | exact seq_le_start_menu_flow db uid day

theorem seq_le_cancel_order_callback (db : DB) (uid : String) :
    db.seq ≤ (cancel_order_callback db uid).seq := by
  unfold cancel_order_callback
  simp only []
  split
  all_goals
    try simp only [seq_set_session_state, seq_update_order_status]
  all_goals exact Nat.le_refl _

theorem seq_le_confirm_pay (db : DB) (uid : String) (gw : GwResult)
    (day : Nat) :
    db.seq ≤ (confirm_pay db uid gw day).1.seq := by
  unfold confirm_pay
  simp only []
  repeat' split
  all_goals
    try simp only [seq_set_session_state, seq_update_order_status,
      seq_update_razorpay_details]
  all_goals
    first
      | exact Nat.le_refl _
      | exact seq_le_start_menu_flow db uid day

theorem seq_le_typed_quantity_branch (db : DB) (uid text : String)
    (day : Nat) :
    db.seq ≤ (typed_quantity_branch db uid text day).seq := by
  unfold typed_quantity_branch
  simp only []
  repeat' split
  all_goals
    try simp only [seq_set_session_state]
  all_goals
    first
      | exact Nat.le_refl _
      | exact seq_le_add_item db uid _ _ day

theorem seq_le_applyEvent (db : DB) (e : Event) :
    db.seq ≤ (applyEvent db e).seq := by
  cases e with
  | create phone day =>
    rw [applyEvent, seq_create_order]
    exact Nat.le_of_lt (seq_lt_nextOrderId db)
  | webhook oid chat m s => exact seq_le_handle_successful_payment db oid chat m s
  | cancelTap uid => exact seq_le_cancel_order_callback db uid
  | deliveredTap oid => rw [applyEvent, delivered_callback, seq_update_order_status]
  | confirmTap uid gw day => exact seq_le_confirm_pay db uid gw day
  | addItem uid iid q day => exact seq_le_add_item db uid iid q day
  | priceUpdate iid p => rw [applyEvent, seq_update_menu_item]
  | menuTap uid day => exact seq_le_start_menu_flow db uid day
  | typedQty uid text day => exact seq_le_typed_quantity_branch db uid text day

theorem seq_le_applyEvents (db : DB) (es : List Event) :
    db.seq ≤ (applyEvents db es).seq := by
  induction es generalizing db with
  | nil => exact Nat.le_refl _
  | cons e t ih =>
    calc db.seq ≤ (applyEvent db e).seq := seq_le_applyEvent db e
      _ ≤ (applyEvents (applyEvent db e) t).seq := ih _

/-! Preservation of the cart invariant. -/

theorem cartOk_eq_of_orders_eq (db db2 : DB) (oid : Nat)
    (h : db.orders = db2.orders) : cartOk db oid = cartOk db2 oid := by
  unfold cartOk get_order_details
  rw [h]

theorem cartOk_some (db : DB) (oid : Nat) (o : Order)
    (hf : get_order_details db oid = some o) (h : cartOk db oid = true) :
    o.total_amount = cartSum o.items := by
  unfold cartOk at h
  rw [hf] at h
  simpa using h

theorem cartSum_append_single (items : List OrderItem) (l : OrderItem) :
    cartSum (items ++ [l]) = cartSum items + l.price * (l.qty : ℚ) := by
  unfold cartSum
  rw [List.map_append, List.sum_append]
  simp

theorem cartOk_update_pres (db : DB) (oid2 : Nat) (f : Order → Order)
    (hid : ∀ o, (f o).id = o.id)
    (hit : ∀ o, (f o).items = o.items)
    (htot : ∀ o, (f o).total_amount = o.total_amount)
    (oid : Nat) (h : cartOk db oid = true) :
    cartOk { db with orders := (updateWhereId db.orders oid2 f).1 } oid
      = true := by
  unfold cartOk get_order_details at h ⊢
  rw [show ({ db with orders := (updateWhereId db.orders oid2 f).1 } : DB).orders
        = (updateWhereId db.orders oid2 f).1 from rfl]
  rw [rowFind_updateWhereId _ _ _ hid]
  cases hf : rowFind db.orders oid with
  | none => rfl
  | some o =>
    rw [hf] at h
    show decide ((if o.id = oid2 then f o else o).total_amount
        = cartSum (if o.id = oid2 then f o else o).items) = true
    by_cases ho : o.id = oid2
    · rw [if_pos ho, htot, hit]
      exact h
    · rw [if_neg ho]
      exact h

theorem cartOk_append (db : DB) (oid : Nat) (o' : Order) (seq' : Nat)
    (hnew : o'.total_amount = cartSum o'.items)
    (h : cartOk db oid = true) :
    cartOk { db with orders := db.orders ++ [o'], seq := seq' } oid
      = true := by
  unfold cartOk get_order_details at h ⊢
  rw [show ({ db with orders := db.orders ++ [o'], seq := seq' } : DB).orders
        = db.orders ++ [o'] from rfl]
  rw [rowFind_append]
  cases hf : rowFind db.orders oid with
  | some o =>
    rw [hf] at h
    exact h
  | none =>
    cases ho : (o'.id == oid) with
    | true =>
      have hs : rowFind [o'] oid = some o' := by
        unfold rowFind
        simp [List.find?, ho]
      rw [hs]
      show decide (o'.total_amount = cartSum o'.items) = true
      simp [hnew]
    | false =>
      have hs : rowFind [o'] oid = none := by
        unfold rowFind
        simp [List.find?, ho]
      rw [hs]
      rfl

theorem cartOk_update_order_status (db : DB) (oid2 : Nat) (st : String)
    (oid : Nat) (h : cartOk db oid = true) :
    cartOk (update_order_status db oid2 st).1 oid = true :=
  cartOk_update_pres db oid2 (fun o => { o with status := st })
    (fun _ => rfl) (fun _ => rfl) (fun _ => rfl) oid h

theorem cartOk_update_razorpay_details (db : DB) (oid2 : Nat)
    (rid link : String) (oid : Nat) (h : cartOk db oid = true) :
    cartOk (update_razorpay_details db oid2 rid link).1 oid = true :=
  cartOk_update_pres db oid2
    (fun o => { o with razorpay_order_id := some rid, payment_link := some link })
    (fun _ => rfl) (fun _ => rfl) (fun _ => rfl) oid h

theorem cartOk_update_order_pickup_code (db : DB) (oid2 : Nat)
    (code : String) (oid : Nat) (h : cartOk db oid = true) :
    cartOk (update_order_pickup_code db oid2 code).1 oid = true :=
  cartOk_update_pres db oid2 (fun o => { o with pickup_code := some code })
    (fun _ => rfl) (fun _ => rfl) (fun _ => rfl) oid h

theorem cartOk_set_session_state (db : DB) (uid st : String)
    (oid2 : Option Nat) (oid : Nat) (h : cartOk db oid = true) :
    cartOk (set_session_state db uid st oid2) oid = true := by
  rw [cartOk_eq_of_orders_eq (set_session_state db uid st oid2) db oid
    (orders_set_session_state db uid st oid2)]
  exact h

theorem cartOk_start_menu_flow (db : DB) (uid : String) (day : Nat)
    (oid : Nat) (h : cartOk db oid = true) :
    cartOk (start_menu_flow db uid day) oid = true := by
  unfold start_menu_flow
  simp only []
  split
  · exact cartOk_set_session_state db uid _ _ oid h
  · exact cartOk_set_session_state _ uid _ _ oid
      (cartOk_append db oid _ _ (by simp [cartSum]) h)

theorem cartOk_update_order_cart_cases (db : DB) (oid' oid : Nat)
    (L : List OrderItem) (T : ℚ) (h : cartOk db oid = true)
    (hok : T = cartSum L ∨ oid ≠ oid' ∨ rowFind db.orders oid' = none) :
    cartOk (update_order_cart db oid' L T).1 oid = true := by
  unfold cartOk get_order_details at h ⊢
  rw [show (update_order_cart db oid' L T).1.orders
        = (updateWhereId db.orders oid' fun o =>
            { o with items := L, total_amount := T }).1 from rfl]
  rw [rowFind_updateWhereId db.orders oid'
        (fun o => { o with items := L, total_amount := T }) (fun _ => rfl) oid]
  cases hf : rowFind db.orders oid with
  | none => rfl
  | some o =>
    rw [hf] at h
    show decide ((if o.id = oid' then
        ({ o with items := L, total_amount := T } : Order) else o).total_amount
        = cartSum (if o.id = oid' then
        ({ o with items := L, total_amount := T } : Order) else o).items) = true
    by_cases ho : o.id = oid'
    · rw [if_pos ho]
      rcases hok with hT | hne | hnone
      · simp [hT]
      · exact absurd (by rw [← rowFind_some_id db.orders oid o hf, ho]) hne
      · have hmem := List.mem_of_find?_eq_some hf
        have := List.find?_eq_none.mp hnone o hmem
        simp [ho] at this
    · rw [if_neg ho]
      exact h

theorem cartOk_add_item (db : DB) (uid : String) (iid : Nat) (q : Int)
    (day : Nat) (oid : Nat) (h : cartOk db oid = true) :
    cartOk (add_item_to_cart_and_prompt db uid iid q day) oid = true := by
  unfold add_item_to_cart_and_prompt
  cases hmi : get_menu_item db iid with
  | none => exact cartOk_start_menu_flow db uid day oid h
  | some it =>
    cases hsid : get_session_order_id db uid with
    | none => exact cartOk_start_menu_flow db uid day oid h
    | some oid' =>
      dsimp only
      by_cases hq : q ≤ 0
      · rw [if_pos hq]
        exact cartOk_start_menu_flow db uid day oid h
      · rw [if_neg hq]
        apply cartOk_set_session_state
        apply cartOk_update_order_cart_cases db oid' oid _ _ h
        by_cases hoe : oid = oid'
        · subst hoe
          cases hod : get_order_details db oid with
          | none =>
            right; right
            exact hod
          | some o =>
            left
            dsimp only
            rw [cartSum_append_single]
            dsimp only
            rw [cartOk_some db oid o hod h]
        · right; left; exact hoe

theorem cartOk_handle_successful_payment (db : DB) (oid2 : Nat)
    (chat : String) (m s : Nat) (oid : Nat) (h : cartOk db oid = true) :
    cartOk (handle_successful_payment db oid2 chat m s) oid = true := by
  unfold handle_successful_payment
  cases get_order_details db oid2 with
  | none => exact h
  | some o =>
    exact cartOk_set_session_state _ chat _ _ oid
      (cartOk_update_order_pickup_code _ oid2 _ oid
        (cartOk_update_order_status db oid2 _ oid h))

theorem cartOk_cancel_order_callback (db : DB) (uid : String) (oid : Nat)
    (h : cartOk db oid = true) :
    cartOk (cancel_order_callback db uid) oid = true := by
  unfold cancel_order_callback
  cases get_session_order_id db uid with
  | none => exact cartOk_set_session_state db uid _ _ oid h
  | some oid2 =>
    exact cartOk_set_session_state _ uid _ _ oid
      (cartOk_update_order_status db oid2 _ oid h)

theorem cartOk_confirm_pay (db : DB) (uid : String) (gw : GwResult)
    (day : Nat) (oid : Nat) (h : cartOk db oid = true) :
    cartOk (confirm_pay db uid gw day).1 oid = true := by
  unfold confirm_pay
  simp only []
  repeat' split
  all_goals
    first
      | exact cartOk_start_menu_flow db uid day oid h
      | exact cartOk_set_session_state db uid _ _ oid h
      | exact cartOk_set_session_state _ uid _ _ oid
          (cartOk_update_order_status db _ _ oid h)
      | exact cartOk_set_session_state _ uid _ _ oid
          (cartOk_update_order_status _ _ _ oid
            (cartOk_update_razorpay_details db _ _ _ oid h))

theorem cartOk_typed_quantity_branch (db : DB) (uid text : String)
    (day : Nat) (oid : Nat) (h : cartOk db oid = true) :
    cartOk (typed_quantity_branch db uid text day) oid = true := by
  unfold typed_quantity_branch
  simp only []
  repeat' split
  all_goals
    first
      | exact h
      | exact cartOk_set_session_state db uid _ _ oid h
      | exact cartOk_set_session_state _ uid _ _ oid
          (cartOk_add_item db uid _ _ day oid h)

theorem cartOk_applyEvent (db : DB) (e : Event) (oid : Nat)
    (h : cartOk db oid = true) :
    cartOk (applyEvent db e) oid = true := by
  cases e with
  | create phone day =>
    exact cartOk_append db oid _ _ (by simp [cartSum]) h
  | webhook oid2 chat m s =>
    exact cartOk_handle_successful_payment db oid2 chat m s oid h
  | cancelTap uid => exact cartOk_cancel_order_callback db uid oid h
  | deliveredTap oid2 =>
    exact cartOk_update_order_status db oid2 _ oid h
  | confirmTap uid gw day => exact cartOk_confirm_pay db uid gw day oid h
  | addItem uid iid q day => exact cartOk_add_item db uid iid q day oid h
  | priceUpdate iid p =>
    have hm : cartOk (update_menu_item db iid p) oid = true := by
      rw [cartOk_eq_of_orders_eq (update_menu_item db iid p) db oid
        (orders_update_menu_item db iid p)]
      exact h
    exact hm
  | menuTap uid day => exact cartOk_start_menu_flow db uid day oid h
  | typedQty uid text day =>
    exact cartOk_typed_quantity_branch db uid text day oid h

theorem cartOk_applyEvents (db : DB) (es : List Event) (oid : Nat)
    (h : cartOk db oid = true) :
    cartOk (applyEvents db es) oid = true := by
  induction es generalizing db with
  | nil => exact h
  | cons e t ih => exact ih (applyEvent db e) (cartOk_applyEvent db e oid h)

/-! Row-level views of the update operations. -/

theorem get_order_details_set_session_state (db : DB) (uid st : String)
    (oid2 : Option Nat) (oid : Nat) :
    get_order_details (set_session_state db uid st oid2) oid
      = get_order_details db oid := rfl

theorem get_order_details_update_order_status (db : DB) (oid : Nat)
    (st : String) :
    get_order_details (update_order_status db oid st).1 oid
      = (get_order_details db oid).map fun o => { o with status := st } := by
  unfold get_order_details
  exact rowFind_update_self db.orders oid
    (fun o => { o with status := st }) (fun _ => rfl)

theorem get_order_details_update_order_pickup_code (db : DB) (oid : Nat)
    (code : String) :
    get_order_details (update_order_pickup_code db oid code).1 oid
      = (get_order_details db oid).map
          fun o => { o with pickup_code := some code } := by
  unfold get_order_details
  exact rowFind_update_self db.orders oid
    (fun o => { o with pickup_code := some code }) (fun _ => rfl)

theorem get_order_details_update_razorpay_details (db : DB) (oid : Nat)
    (rid link : String) :
    get_order_details (update_razorpay_details db oid rid link).1 oid
      = (get_order_details db oid).map
          fun o => { o with razorpay_order_id := some rid,
                            payment_link := some link } := by
  unfold get_order_details
  exact rowFind_update_self db.orders oid
    (fun o => { o with razorpay_order_id := some rid,
                       payment_link := some link }) (fun _ => rfl)

theorem get_order_details_update_order_cart (db : DB) (oid : Nat)
    (L : List OrderItem) (T : ℚ) :
    get_order_details (update_order_cart db oid L T).1 oid
      = (get_order_details db oid).map
          fun o => { o with items := L, total_amount := T } := by
  unfold get_order_details
  exact rowFind_update_self db.orders oid
    (fun o => { o with items := L, total_amount := T }) (fun _ => rfl)

theorem get_user_phone_eq_of_users_eq (db db2 : DB) (uid : String)
    (h : db.users = db2.users) :
    get_user_phone db uid = get_user_phone db2 uid := by
  unfold get_user_phone findUser
  rw [h]

/-- The database effect of one payment webhook delivery on the order row:
whatever the current status is, the row is rewritten with status paid and a
freshly generated pickup code. -/
theorem handle_payment_row (db : DB) (oid : Nat) (chat : String)
    (m s : Nat) (o : Order) (hf : get_order_details db oid = some o) :
    get_order_details (handle_successful_payment db oid chat m s) oid =
      some { o with status := "paid",
                    pickup_code := some (verification_code oid m s) } := by
  unfold handle_successful_payment
  rw [hf]
  dsimp only
  rw [get_order_details_set_session_state,
      get_order_details_update_order_pickup_code,
      get_order_details_update_order_status, hf]
  rfl

/-! Facts about the pickup verification code. -/

theorem pad2_length_two : ∀ n, n < 100 → (pad2 n).length = 2 := by decide

theorem pad2_inj_lt60 : ∀ m, m < 60 → ∀ n, n < 60 → pad2 m = pad2 n →
    m = n := by decide

theorem string_eq_of_data_eq (s t : String) (h : s.data = t.data) :
    s = t := by
  cases s
  cases t
  simp_all

theorem verification_code_inj_time (oid : Nat) (m s m' s' : Nat)
    (hm : m < 60) (hs : s < 60) (hm' : m' < 60) (hs' : s' < 60)
    (h : verification_code oid m s = verification_code oid m' s') :
    m = m' ∧ s = s' := by
  unfold verification_code at h
  have hd := congrArg String.data h
  rw [String.data_append, String.data_append, String.data_append,
      String.data_append] at hd
  have h2 : (pad2 m).data ++ (pad2 s).data
      = (pad2 m').data ++ (pad2 s').data := by
    rw [List.append_assoc, List.append_assoc] at hd
    exact List.append_cancel_left hd
  have hlen : (pad2 m).data.length = (pad2 m').data.length := by
    have e1 : (pad2 m).data.length = (pad2 m).length := rfl
    have e2 : (pad2 m').data.length = (pad2 m').length := rfl
    rw [e1, e2, pad2_length_two m (by omega), pad2_length_two m' (by omega)]
  obtain ⟨e1, e2⟩ := List.append_inj h2 hlen
  exact ⟨pad2_inj_lt60 m hm m' hm' (string_eq_of_data_eq _ _ e1),
         pad2_inj_lt60 s hs s' hs' (string_eq_of_data_eq _ _ e2)⟩

theorem verification_code_ne_of_time_ne (oid : Nat) (m s m' s' : Nat)
    (hm : m < 60) (hs : s < 60) (hm' : m' < 60) (hs' : s' < 60)
    (hne : (m, s) ≠ (m', s')) :
    verification_code oid m s ≠ verification_code oid m' s' := by
  intro h
  obtain ⟨e1, e2⟩ := verification_code_inj_time oid m s m' s' hm hs hm' hs' h
  exact hne (by rw [e1, e2])

/-! Concrete sample rows used in closed instances. -/

/-- An order sitting in payment_pending with a stored payment link. -/
def cexOrderPP : Order :=
  { id := 7, student_phone := "u1", items := [], total_amount := 0,
    status := "payment_pending", payment_link := some "https://rzp.io/l7",
    pickup_code := none, razorpay_order_id := some "plink_7",
    service_type := some "parcel", created_day := 0 }

/-- The owner session of cexOrderPP, as left by the confirm-and-pay step. -/
def cexUser1 : User :=
  { id := "u1", phone_number := some "9876543210",
    session_state := "waiting_for_payment", current_order_id := some 7 }

/-- A database holding cexOrderPP and its owner session. -/
def cexDB1 : DB :=
  { menu := [], orders := [cexOrderPP], seq := 7, users := [cexUser1] }

/-- A cancelled order. -/
def cexOrderCancelled : Order :=
  { cexOrderPP with id := 9, status := "cancelled" }

/-- A session row for the cancelled order owner. -/
def cexUser2 : User :=
  { id := "u2", phone_number := some "9876500000",
    session_state := "initial", current_order_id := none }

/-- A database holding the cancelled order. -/
def cexDB2 : DB :=
  { menu := [], orders := [cexOrderCancelled], seq := 9, users := [cexUser2] }

/-! Claim C1. -/

/-- C1 (counterexample): the claim says the second delivery of the same
payment-completed webhook is a no-op on the order row. In the code each
delivery reruns handle_successful_payment, which regenerates the pickup
code from the clock and overwrites it, so a redelivery at a different
minute-second changes the row. -/
theorem webhook_replay_not_noop_cex :
    get_order_details
        (handle_successful_payment
          (handle_successful_payment cexDB1 7 "u1" 10 5) 7 "u1" 10 6) 7
      ≠ get_order_details (handle_successful_payment cexDB1 7 "u1" 10 5) 7 := by
  decide

/-- C1 (amended): delivering the payment-completed webhook N times (N at
least 1) leaves the order with status paid (across all N writes the status
value moves to paid once) and with the pickup code generated at the LAST
delivery: every delivery reassigns the pickup code rather than being a
no-op, and every resolvable delivery is acknowledged with HTTP 200, so N
deliveries produce N acknowledgments. There is no status precondition. -/
theorem webhook_replay_effects :
    (∀ (db : DB) (oid : Nat) (chat : String) (ts : List (Nat × Nat))
        (o : Order) (p : Nat × Nat),
        get_order_details db oid = some o → ts.getLast? = some p →
        get_order_details
            (ts.foldl (fun d q => handle_successful_payment d oid chat q.1 q.2)
              db) oid
          = some { o with status := "paid",
                          pickup_code := some (verification_code oid p.1 p.2) })
  ∧ (∀ (ev : ParsedEvent) (fetch : String → Option RzpOrder)
        (rid i c : String) (ro : RzpOrder) (n : Int),
        ev.event_type = "payment.captured" → ev.payment_order_id = some rid →
        fetch rid = some ro → ro.notes_internal_order_id = some i →
        ro.notes_telegram_chat_id = some c → pyInt i = some n →
        razorpay_webhook true (some ev) fetch = (200, true)) := by
  constructor
  · intro db oid chat ts o p hf hlast
    induction ts generalizing db o with
    | nil => simp at hlast
    | cons q t ih =>
      rw [List.foldl_cons]
      cases t with
      | nil =>
        simp at hlast
        subst hlast
        exact handle_payment_row db oid chat q.1 q.2 o hf
      | cons q2 t2 =>
        rw [List.getLast?_cons_cons] at hlast
        exact ih _
          { o with status := "paid",
                   pickup_code := some (verification_code oid q.1 q.2) }
          (handle_payment_row db oid chat q.1 q.2 o hf) hlast
  · intro ev fetch rid i c ro n h1 h2 h3 h4 h5 h6
    simp [razorpay_webhook, h1, h2, h3, h4, h5, h6]

/-- A sample captured-payment event as parsed from the webhook body. -/
def cexEvent : ParsedEvent :=
  { event_type := "payment.captured", payment_order_id := some "ord_1" }

/-- The notes of the matching gateway order. -/
def cexNotes : RzpOrder :=
  { notes_internal_order_id := some "7", notes_telegram_chat_id := some "u1" }

theorem webhook_replay_effects_witness :
    get_order_details
        (([((10 : Nat), (5 : Nat)), (10, 6)]).foldl
          (fun d q => handle_successful_payment d 7 "u1" q.1 q.2) cexDB1) 7
      = some { cexOrderPP with
                 status := "paid",
                 pickup_code := some (verification_code 7 10 6) }
    ∧ razorpay_webhook true (some cexEvent) (fun _ => some cexNotes)
        = (200, true) :=
  ⟨webhook_replay_effects.1 cexDB1 7 "u1" [(10, 5), (10, 6)] cexOrderPP (10, 6)
      (by decide) (by decide),
   webhook_replay_effects.2 cexEvent (fun _ => some cexNotes)
      "ord_1" "7" "u1" cexNotes 7 rfl rfl rfl rfl rfl (by decide)⟩

/-! Claim C2. -/

/-- C2 (counterexample): the claim says applying the payment-completed
handling to an order already Cancelled returns success and mutates nothing.
In the code handle_successful_payment never checks the status: a webhook
for a cancelled order rewrites its status to paid. -/
theorem mark_paid_resurrects_cancelled_cex :
    (get_order_details cexDB2 9).map Order.status = some "cancelled"
    ∧ (get_order_details
        (handle_successful_payment cexDB2 9 "u2" 10 5) 9).map Order.status
        = some "paid" := by
  decide

/-- C2 (amended): the payment-completed handling applies with no status
precondition: on an order in any status, Paid, Delivered or Cancelled
included, it rewrites the row with status paid and a fresh pickup code
(it is not a no-op, and a cancelled order is resurrected to paid). -/
theorem mark_paid_ignores_status (db : DB) (oid : Nat) (chat : String)
    (m s : Nat) (o : Order) (hf : get_order_details db oid = some o) :
    get_order_details (handle_successful_payment db oid chat m s) oid =
      some { o with status := "paid",
                    pickup_code := some (verification_code oid m s) } :=
  handle_payment_row db oid chat m s o hf

theorem mark_paid_ignores_status_witness :
    get_order_details (handle_successful_payment cexDB2 9 "u2" 10 5) 9 =
      some { cexOrderCancelled with
               status := "paid",
               pickup_code := some (verification_code 9 10 5) } :=
  mark_paid_ignores_status cexDB2 9 "u2" 10 5 cexOrderCancelled (by decide)

/-! Claim C3. -/

/-- A one-row database whose order is cancelled. -/
def cexDB3 : DB :=
  { menu := [], orders := [{ cexOrderPP with id := 3, status := "cancelled" }],
    seq := 3, users := [] }

/-- C3 (counterexample): the claim says every state-changing operation is a
conditional update that fails with StaleOrderState when the status
precondition fails. update_order_status is an unconditional write by id:
marking a cancelled order paid succeeds and changes the row. -/
theorem update_status_unconditional_cex :
    (update_order_status cexDB3 3 "paid").2 = true
    ∧ (get_order_details (update_order_status cexDB3 3 "paid").1 3).map
        Order.status = some "paid"
    ∧ (get_order_details cexDB3 3).map Order.status = some "cancelled" := by
  decide

/-- C3 (amended): the five order mutations are unconditional writes keyed
only by id: update_order_status, update_order_cart,
update_razorpay_details, update_order_pickup_code and
update_order_service_type each succeed exactly when a row with that id
exists, whatever its current status, and then overwrite the addressed
columns; no StaleOrderState error exists in the code. -/
theorem updates_unconditional_by_id :
    (∀ (db : DB) (oid : Nat) (st : String),
        ((update_order_status db oid st).2 = true
          ↔ (get_order_details db oid).isSome)
      ∧ get_order_details (update_order_status db oid st).1 oid
          = (get_order_details db oid).map fun o => { o with status := st })
  ∧ (∀ (db : DB) (oid : Nat) (L : List OrderItem) (T : ℚ),
        ((update_order_cart db oid L T).2 = true
          ↔ (get_order_details db oid).isSome)
      ∧ get_order_details (update_order_cart db oid L T).1 oid
          = (get_order_details db oid).map
              fun o => { o with items := L, total_amount := T })
  ∧ (∀ (db : DB) (oid : Nat) (rid link : String),
        ((update_razorpay_details db oid rid link).2 = true
          ↔ (get_order_details db oid).isSome)
      ∧ get_order_details (update_razorpay_details db oid rid link).1 oid
          = (get_order_details db oid).map
              fun o => { o with razorpay_order_id := some rid,
                                payment_link := some link })
  ∧ (∀ (db : DB) (oid : Nat) (code : String),
        ((update_order_pickup_code db oid code).2 = true
          ↔ (get_order_details db oid).isSome)
      ∧ get_order_details (update_order_pickup_code db oid code).1 oid
          = (get_order_details db oid).map
              fun o => { o with pickup_code := some code })
  ∧ (∀ (db : DB) (oid : Nat) (sv : String),
        ((update_order_service_type db oid sv).2 = true
          ↔ (get_order_details db oid).isSome)
      ∧ get_order_details (update_order_service_type db oid sv).1 oid
          = (get_order_details db oid).map
              fun o => { o with service_type := some sv }) := by
  refine ⟨fun db oid st => ⟨?_, ?_⟩, fun db oid L T => ⟨?_, ?_⟩,
          fun db oid rid link => ⟨?_, ?_⟩, fun db oid code => ⟨?_, ?_⟩,
          fun db oid sv => ⟨?_, ?_⟩⟩
  · rw [show (update_order_status db oid st).2
        = decide (0 < (db.orders.filter fun o => o.id == oid).length) from rfl]
    rw [decide_eq_true_iff]
    exact rowcount_pos_iff db.orders oid
  · exact get_order_details_update_order_status db oid st
  · rw [show (update_order_cart db oid L T).2
        = decide (0 < (db.orders.filter fun o => o.id == oid).length) from rfl]
    rw [decide_eq_true_iff]
    exact rowcount_pos_iff db.orders oid
  · exact get_order_details_update_order_cart db oid L T
  · rw [show (update_razorpay_details db oid rid link).2
        = decide (0 < (db.orders.filter fun o => o.id == oid).length) from rfl]
    rw [decide_eq_true_iff]
    exact rowcount_pos_iff db.orders oid
  · exact get_order_details_update_razorpay_details db oid rid link
  · rw [show (update_order_pickup_code db oid code).2
        = decide (0 < (db.orders.filter fun o => o.id == oid).length) from rfl]
    rw [decide_eq_true_iff]
    exact rowcount_pos_iff db.orders oid
  · exact get_order_details_update_order_pickup_code db oid code
  · rw [show (update_order_service_type db oid sv).2
        = decide (0 < (db.orders.filter fun o => o.id == oid).length) from rfl]
    rw [decide_eq_true_iff]
    exact rowcount_pos_iff db.orders oid
  · unfold get_order_details
    exact rowFind_update_self db.orders oid
      (fun o => { o with service_type := some sv }) (fun _ => rfl)

/-! Claim C4. -/

/-- C4 (counterexample): the claim says a customer cancel is rejected once
the order is Paid. After payment the session still references the order
(pickup_ready), and the cancel callback cancels it with no status check:
the order moves from paid to cancelled through the customer cancel path. -/
theorem cancel_paid_order_cex :
    (get_order_details
        (handle_successful_payment cexDB1 7 "u1" 10 5) 7).map Order.status
      = some "paid"
    ∧ (get_order_details
        (cancel_order_callback
          (handle_successful_payment cexDB1 7 "u1" 10 5) "u1") 7).map
        Order.status = some "cancelled" := by
  decide

/-- C4 (amended): the customer cancel callback cancels whatever order the
session currently references, whatever its status (paid included), and
resets the session to initial with no current order. -/
theorem cancel_ignores_status (db : DB) (uid : String) (oid : Nat)
    (o : Order)
    (hs : get_session_order_id db uid = some oid)
    (hf : get_order_details db oid = some o) :
    get_order_details (cancel_order_callback db uid) oid
      = some { o with status := "cancelled" }
    ∧ get_session_state (cancel_order_callback db uid) uid = "initial"
    ∧ get_session_order_id (cancel_order_callback db uid) uid = none := by
  unfold cancel_order_callback
  rw [hs]
  dsimp only
  refine ⟨?_, ?_, ?_⟩
  · rw [get_order_details_set_session_state,
        get_order_details_update_order_status, hf]
    rfl
  · exact get_session_state_set_self _ uid _ _
  · exact get_session_order_id_set_self _ uid _ _

theorem cancel_ignores_status_witness :
    get_order_details (cancel_order_callback cexDB1 "u1") 7
      = some { cexOrderPP with status := "cancelled" }
    ∧ get_session_state (cancel_order_callback cexDB1 "u1") "u1" = "initial"
    ∧ get_session_order_id (cancel_order_callback cexDB1 "u1") "u1" = none :=
  cancel_ignores_status cexDB1 "u1" 7 cexOrderPP (by decide) (by decide)

/-! Claim C5. -/

/-- Menu row: samosa at fifty rupees. -/
def menuSamosa : MenuItem :=
  { id := 1, name := "samosa", price := 50, available := true }

/-- Menu row: tea at thirty rupees. -/
def menuTea : MenuItem :=
  { id := 2, name := "tea", price := 30, available := true }

/-- A pending order with an empty cart. -/
def cexOrderPending : Order :=
  { id := 1, student_phone := "u5", items := [], total_amount := 0,
    status := "pending", payment_link := none, pickup_code := none,
    razorpay_order_id := none, service_type := none, created_day := 0 }

/-- A session waiting for a typed quantity for menu item 1. -/
def cexUser5 : User :=
  { id := "u5", phone_number := none,
    session_state := "awaiting_typed_quantity_1", current_order_id := some 1 }

/-- A database in the awaiting-typed-quantity state. -/
def cexDB5 : DB :=
  { menu := [menuSamosa, menuTea], orders := [cexOrderPending], seq := 1,
    users := [cexUser5] }

/-- C5 (counterexample): the claim says non-numeric typed input only
re-prompts, leaving the session state unchanged. In the code the
ValueError handler falls through to the write after the try block, which
moves the session to awaiting_add_more. The order is untouched, but the
session state is not the same. -/
theorem nonnumeric_qty_changes_state_cex :
    get_session_state cexDB5 "u5" = "awaiting_typed_quantity_1"
    ∧ get_session_state (typed_quantity_branch cexDB5 "u5" "abc" 0) "u5"
        = "awaiting_add_more"
    ∧ (typed_quantity_branch cexDB5 "u5" "abc" 0).orders = cexDB5.orders := by
  decide

/-- C5 (amended): a typed quantity that parses as an integer but is
non-positive or above 100 re-prompts and returns before any write: the
whole database, session included, is exactly unchanged. A non-numeric
input leaves the orders table unchanged but falls through to the write
after the try block, which sets the session state to awaiting_add_more. -/
theorem typed_quantity_validation :
    (∀ (db : DB) (uid text : String) (day : Nat) (q : Int),
        pyInt (pyStrip text) = some q → (q ≤ 0 ∨ 100 < q) →
        (pyInt (splitLast (get_session_state db uid) '_')).isSome →
        typed_quantity_branch db uid text day = db)
  ∧ (∀ (db : DB) (uid text : String) (day : Nat),
        pyInt (pyStrip text) = none →
        (typed_quantity_branch db uid text day).orders = db.orders
        ∧ get_session_state (typed_quantity_branch db uid text day) uid
            = "awaiting_add_more") := by
  constructor
  · intro db uid text day q hq hrange hid
    unfold typed_quantity_branch
    simp only []
    rw [hq]
    dsimp only
    cases hpid : pyInt (splitLast (get_session_state db uid) '_') with
    | none => rw [hpid] at hid; simp at hid
    | some iid =>
      dsimp only
      rw [if_pos hrange]
  · intro db uid text day hq
    unfold typed_quantity_branch
    simp only []
    rw [hq]
    dsimp only
    exact ⟨orders_set_session_state db uid _ _,
           get_session_state_set_self db uid _ _⟩

theorem typed_quantity_validation_witness :
    typed_quantity_branch cexDB5 "u5" "101" 0 = cexDB5
    ∧ (typed_quantity_branch cexDB5 "u5" "12x" 0).orders = cexDB5.orders :=
  ⟨typed_quantity_validation.1 cexDB5 "u5" "101" 0 101 (by decide)
      (Or.inr (by decide)) (by decide),
   (typed_quantity_validation.2 cexDB5 "u5" "12x" 0 (by decide)).1⟩

/-! Claim C6. -/

/-- C6 (confirmed): across any sequence of inbound events, every order row
keeps total_amount equal to the sum of unit_price times quantity over its
stored lines; a successful add_item appends exactly one line carrying the
menu price at the moment of the add and raises the total by price times
quantity; and a menu price update leaves every existing order row (lines
and total) unchanged. -/
theorem cart_total_is_sum_of_snapshots :
    (∀ (db : DB) (es : List Event) (oid : Nat),
        cartOk db oid = true → cartOk (applyEvents db es) oid = true)
  ∧ (∀ (db : DB) (uid : String) (iid : Nat) (q : Int) (day : Nat)
        (oid : Nat) (it : MenuItem) (o : Order),
        get_session_order_id db uid = some oid →
        get_menu_item db iid = some it → 0 < q →
        get_order_details db oid = some o →
        get_order_details (add_item_to_cart_and_prompt db uid iid q day) oid
          = some { o with
              items := o.items ++
                [{ id := it.id, name := it.name, price := it.price, qty := q }],
              total_amount := o.total_amount + it.price * (q : ℚ) })
  ∧ (∀ (db : DB) (iid : Nat) (p : ℚ) (oid : Nat),
        get_order_details (update_menu_item db iid p) oid
          = get_order_details db oid) := by
  refine ⟨fun db es oid h => cartOk_applyEvents db es oid h, ?_,
          fun db iid p oid => rfl⟩
  intro db uid iid q day oid it o hs hmi hq hf
  unfold add_item_to_cart_and_prompt
  rw [hmi]
  dsimp only
  rw [hs]
  dsimp only
  rw [if_neg (by omega : ¬ q ≤ 0)]
  rw [get_order_details_set_session_state,
      get_order_details_update_order_cart, hf]
  dsimp only
  rfl

theorem cart_total_is_sum_of_snapshots_witness :
    cartOk (applyEvents cexDB5
        [Event.addItem "u5" 1 2 0, Event.priceUpdate 1 60,
         Event.addItem "u5" 2 1 0]) 1 = true
    ∧ get_order_details (add_item_to_cart_and_prompt cexDB5 "u5" 1 2 0) 1
        = some { cexOrderPending with
                   items := [{ id := 1, name := "samosa", price := 50,
                               qty := 2 }],
                   total_amount := 100 }
    ∧ get_order_details (update_menu_item cexDB5 1 60) 1
        = get_order_details cexDB5 1 := by
  refine ⟨cart_total_is_sum_of_snapshots.1 cexDB5 _ 1 (by decide), ?_,
          cart_total_is_sum_of_snapshots.2.2 cexDB5 1 60 1⟩
  have h := cart_total_is_sum_of_snapshots.2.1 cexDB5 "u5" 1 2 0 1
    menuSamosa cexOrderPending (by decide) (by decide) (by decide) (by decide)
  rw [h]
  simp only [cexOrderPending, menuSamosa]
  norm_num

/-! Claim C7. -/

/-- The order row as rewritten by a first confirm-and-pay tap that created
and stored a fresh link. -/
def linkedRow (o : Order) (rid url : String) : Order :=
  { o with
      razorpay_order_id := some rid,
      payment_link := some url,
      status := "payment_pending" }

/-- C7 (confirmed): for a session whose order exists and whose phone is on
file, with a well-formed link pair (a stored link id implies a stored URL,
which every write of update_razorpay_details guarantees), two consecutive
confirm-and-pay taps show the identical payment link both times, and the
gateway is contacted at most once across the two taps: the second tap makes
zero link-creation calls whatever the gateway would answer. Moreover a tap
on an order that already has a stored link reference never contacts the
gateway at all. -/
theorem payment_link_idempotent :
    (∀ (db : DB) (uid : String) (coid : Nat) (o : Order)
        (ph rid url : String) (gw2 : GwResult) (d d2 : Nat),
        get_session_order_id db uid = some coid →
        get_order_details db coid = some o →
        get_user_phone db uid = some ph →
        rid.isEmpty = false → url.isEmpty = false →
        (truthy o.razorpay_order_id = true → truthy o.payment_link = true) →
        ∃ url1,
          (confirm_pay db uid (.ok rid url) d).2.1 = some url1
          ∧ (confirm_pay (confirm_pay db uid (.ok rid url) d).1
               uid gw2 d2).2.1 = some url1
          ∧ (confirm_pay (confirm_pay db uid (.ok rid url) d).1
               uid gw2 d2).2.2 = 0
          ∧ (confirm_pay db uid (.ok rid url) d).2.2 ≤ 1)
  ∧ (∀ (db : DB) (uid : String) (coid : Nat) (o : Order) (gw : GwResult)
        (d : Nat),
        get_session_order_id db uid = some coid →
        get_order_details db coid = some o →
        (truthy o.razorpay_order_id && truthy o.payment_link) = true →
        (confirm_pay db uid gw d).2.2 = 0) := by
  constructor
  · intro db uid coid o ph rid url gw2 d d2 hs hf hph hrid hurl hwf
    by_cases hreuse : (truthy o.razorpay_order_id
        && truthy o.payment_link) = true
    · -- a link pair is already stored: both taps reuse it
      have hl : ∃ l, o.payment_link = some l := by
        cases hpl : o.payment_link with
        | none => rw [hpl] at hreuse; simp [truthy] at hreuse
        | some l => exact ⟨l, rfl⟩
      obtain ⟨l, hpl⟩ := hl
      have h1 : confirm_pay db uid (.ok rid url) d
          = (set_session_state (update_order_status db coid
               "payment_pending").1 uid "waiting_for_payment" (some coid),
             o.payment_link, 0) := by
        unfold confirm_pay
        rw [hs]
        dsimp only
        rw [hf]
        dsimp only
        rw [if_neg (by simp [hph]), if_pos hreuse]
      have hs1 : get_session_order_id (set_session_state (update_order_status
            db coid "payment_pending").1 uid "waiting_for_payment"
            (some coid)) uid = some coid :=
        get_session_order_id_set_self _ uid _ _
      have hf1 : get_order_details (set_session_state (update_order_status
            db coid "payment_pending").1 uid "waiting_for_payment"
            (some coid)) coid
          = some { o with status := "payment_pending" } := by
        rw [get_order_details_set_session_state,
            get_order_details_update_order_status, hf]
        rfl
      have hph1 : get_user_phone (set_session_state (update_order_status
            db coid "payment_pending").1 uid "waiting_for_payment"
            (some coid)) uid = some ph := by
        rw [get_user_phone_set_session_state,
            get_user_phone_eq_of_users_eq _ db uid
              (users_update_order_status db coid _)]
        exact hph
      have hreuse1 : (truthy ({ o with status := "payment_pending" }
            : Order).razorpay_order_id
          && truthy ({ o with status := "payment_pending" }
            : Order).payment_link) = true := hreuse
      have h2 : confirm_pay (set_session_state (update_order_status db coid
            "payment_pending").1 uid "waiting_for_payment" (some coid))
            uid gw2 d2
          = (set_session_state (update_order_status (set_session_state
               (update_order_status db coid "payment_pending").1 uid
               "waiting_for_payment" (some coid)) coid "payment_pending").1
               uid "waiting_for_payment" (some coid),
             ({ o with status := "payment_pending" } : Order).payment_link,
             0) := by
        unfold confirm_pay
        rw [hs1]
        dsimp only
        rw [hf1]
        dsimp only
        rw [if_neg (by simp [hph1]), if_pos hreuse1]
      refine ⟨l, ?_, ?_, ?_, ?_⟩
      · rw [h1]
        exact hpl
      · rw [h1]
        dsimp only
        rw [h2]
        exact hpl
      · rw [h1]
        dsimp only
        rw [h2]
      · rw [h1]
        exact Nat.zero_le 1
    · -- no stored pair: the first tap creates and stores the link once
      have hnr : truthy o.razorpay_order_id = false := by
        cases htr : truthy o.razorpay_order_id with
        | false => rfl
        | true =>
          rw [htr, hwf htr] at hreuse
          simp at hreuse
      have h1 : confirm_pay db uid (.ok rid url) d
          = (set_session_state (update_order_status
               (update_razorpay_details db coid rid url).1 coid
               "payment_pending").1 uid "waiting_for_payment" (some coid),
             some url, 1) := by
        unfold confirm_pay
        rw [hs]
        dsimp only
        rw [hf]
        dsimp only
        rw [if_neg (by simp [hph]), if_neg hreuse]
        rw [if_pos (by simp [hrid, hurl]), if_pos (by simp [hnr])]
      have hs1 : get_session_order_id (set_session_state (update_order_status
            (update_razorpay_details db coid rid url).1 coid
            "payment_pending").1 uid "waiting_for_payment" (some coid)) uid
          = some coid :=
        get_session_order_id_set_self _ uid _ _
      have hf1 : get_order_details (set_session_state (update_order_status
            (update_razorpay_details db coid rid url).1 coid
            "payment_pending").1 uid "waiting_for_payment" (some coid)) coid
          = some (linkedRow o rid url) := by
        rw [get_order_details_set_session_state,
            get_order_details_update_order_status,
            get_order_details_update_razorpay_details, hf]
        rfl
      have hph1 : get_user_phone (set_session_state (update_order_status
            (update_razorpay_details db coid rid url).1 coid
            "payment_pending").1 uid "waiting_for_payment" (some coid)) uid
          = some ph := by
        rw [get_user_phone_set_session_state,
            get_user_phone_eq_of_users_eq _
              (update_razorpay_details db coid rid url).1 uid
              (users_update_order_status _ coid _),
            get_user_phone_eq_of_users_eq _ db uid
              (users_update_razorpay_details db coid rid url)]
        exact hph
      have hreuse1 : (truthy (linkedRow o rid url).razorpay_order_id
          && truthy (linkedRow o rid url).payment_link) = true := by
        simp [linkedRow, truthy, hrid, hurl]
      have h2 : confirm_pay (set_session_state (update_order_status
            (update_razorpay_details db coid rid url).1 coid
            "payment_pending").1 uid "waiting_for_payment" (some coid))
            uid gw2 d2
          = (set_session_state (update_order_status (set_session_state
               (update_order_status (update_razorpay_details db coid rid
               url).1 coid "payment_pending").1 uid "waiting_for_payment"
               (some coid)) coid "payment_pending").1 uid
               "waiting_for_payment" (some coid),
             (linkedRow o rid url).payment_link, 0) := by
        unfold confirm_pay
        rw [hs1]
        dsimp only
        rw [hf1]
        dsimp only
        rw [if_neg (by simp [hph1]), if_pos hreuse1]
      refine ⟨url, ?_, ?_, ?_, ?_⟩
      · rw [h1]
      · rw [h1]
        dsimp only
        rw [h2]
        try rfl
        try simp [linkedRow]
      · rw [h1]
        dsimp only
        rw [h2]
      · rw [h1]
  · intro db uid coid o gw d hs hf hreuse
    unfold confirm_pay
    rw [hs]
    dsimp only
    rw [hf]
    dsimp only
    by_cases hp : ((get_user_phone db uid).isNone = true)
    · rw [if_pos hp]
    · rw [if_neg hp, if_pos hreuse]

theorem payment_link_idempotent_witness :
    (∃ url1,
      (confirm_pay cexDB1 "u1" (.ok "plink_9" "https://rzp.io/l9") 0).2.1
        = some url1
      ∧ (confirm_pay (confirm_pay cexDB1 "u1"
            (.ok "plink_9" "https://rzp.io/l9") 0).1 "u1" .exc 0).2.1
        = some url1
      ∧ (confirm_pay (confirm_pay cexDB1 "u1"
            (.ok "plink_9" "https://rzp.io/l9") 0).1 "u1" .exc 0).2.2 = 0
      ∧ (confirm_pay cexDB1 "u1" (.ok "plink_9" "https://rzp.io/l9") 0).2.2
        ≤ 1)
    ∧ (confirm_pay cexDB1 "u1" .errNone 0).2.2 = 0 :=
  ⟨payment_link_idempotent.1 cexDB1 "u1" 7 cexOrderPP "9876543210"
      "plink_9" "https://rzp.io/l9" .exc 0 0 (by decide) (by decide)
      (by decide) (by decide) (by decide) (fun _ => by decide),
   payment_link_idempotent.2 cexDB1 "u1" 7 cexOrderPP .errNone 0
      (by decide) (by decide) (by decide)⟩

/-! Claim C8. -/

/-- Gateway-order notes lacking the internal order id key. -/
def cexNotesMissing : RzpOrder :=
  { notes_internal_order_id := none, notes_telegram_chat_id := none }

/-- C8 (counterexample): the claim says an event the handler cannot resolve
to an internal order is acknowledged with HTTP 200. In the code the whole
resolution (gateway order fetch plus notes key accesses) runs inside the
try block whose handler answers 500, so a signature-valid captured-payment
event with no internal_order_id note gets 500, not 200. -/
theorem webhook_unresolvable_returns_500_cex :
    razorpay_webhook true (some cexEvent) (fun _ => some cexNotesMissing)
      = (500, false)
    ∧ (500 : Nat) ≠ 200 := by
  decide

/-- C8 (amended): the signature is verified against the raw body before any
parsing: an invalid signature is answered 400 with no processing, whatever
the payload holds. A signature-valid event is answered 200 when it is not a
captured payment, or when it resolves through the fetched gateway order
notes (spawning the payment handler); it is answered 500 when the payload
does not parse or when the resolution fails (fetch failure or missing
note), since every resolution step sits inside the 500-handling try
block. -/
theorem webhook_response_analysis :
    (∀ (parsed : Option ParsedEvent) (fetch : String → Option RzpOrder),
        razorpay_webhook false parsed fetch = (400, false))
  ∧ (∀ (fetch : String → Option RzpOrder),
        razorpay_webhook true none fetch = (500, false))
  ∧ (∀ (ev : ParsedEvent) (fetch : String → Option RzpOrder),
        ev.event_type ≠ "payment.captured" →
        razorpay_webhook true (some ev) fetch = (200, false))
  ∧ (∀ (ev : ParsedEvent) (fetch : String → Option RzpOrder)
        (rid : String) (ro : RzpOrder) (i c : String) (n : Int),
        ev.event_type = "payment.captured" →
        ev.payment_order_id = some rid → fetch rid = some ro →
        ro.notes_internal_order_id = some i →
        ro.notes_telegram_chat_id = some c → pyInt i = some n →
        razorpay_webhook true (some ev) fetch = (200, true))
  ∧ (∀ (ev : ParsedEvent) (fetch : String → Option RzpOrder)
        (rid : String) (ro : RzpOrder),
        ev.event_type = "payment.captured" →
        ev.payment_order_id = some rid → fetch rid = some ro →
        ro.notes_internal_order_id = none →
        razorpay_webhook true (some ev) fetch = (500, false)) := by
  refine ⟨fun parsed fetch => rfl, fun fetch => rfl, ?_, ?_, ?_⟩
  · intro ev fetch h
    simp [razorpay_webhook, h]
  · intro ev fetch rid ro i c n h1 h2 h3 h4 h5 h6
    simp [razorpay_webhook, h1, h2, h3, h4, h5, h6]
  · intro ev fetch rid ro h1 h2 h3 h4
    simp [razorpay_webhook, h1, h2, h3, h4]

theorem webhook_response_analysis_witness :
    razorpay_webhook false (some cexEvent) (fun _ => some cexNotes)
        = (400, false)
    ∧ razorpay_webhook true none (fun _ => some cexNotes) = (500, false)
    ∧ razorpay_webhook true
        (some { event_type := "order.paid", payment_order_id := none })
        (fun _ => some cexNotes) = (200, false)
    ∧ razorpay_webhook true (some cexEvent) (fun _ => some cexNotes)
        = (200, true)
    ∧ razorpay_webhook true (some cexEvent) (fun _ => some cexNotesMissing)
        = (500, false) :=
  ⟨webhook_response_analysis.1 (some cexEvent) (fun _ => some cexNotes),
   webhook_response_analysis.2.1 (fun _ => some cexNotes),
   webhook_response_analysis.2.2.1
      { event_type := "order.paid", payment_order_id := none }
      (fun _ => some cexNotes) (by decide),
   webhook_response_analysis.2.2.2.1 cexEvent (fun _ => some cexNotes)
      "ord_1" cexNotes "7" "u1" 7 rfl rfl rfl rfl rfl (by decide),
   webhook_response_analysis.2.2.2.2 cexEvent (fun _ => some cexNotesMissing)
      "ord_1" cexNotesMissing rfl rfl rfl rfl⟩

/-! Claim C9. -/

/-- C9 (confirmed): the daily token is the AUTOINCREMENT order id, assigned
at creation. Between any two order creations, whatever inbound events are
handled in between (payment webhooks for either order in any arrival
order, taps, cart edits, price updates), the second id is strictly larger
than the first. Once the day-boundary job has deleted every order created
before the new day (at least one row), the sequence entry is reset and the
next order id is 1. -/
theorem daily_tokens_monotone_and_reset :
    (∀ (db : DB) (es : List Event) (p1 p2 : String) (d1 d2 : Nat),
        (create_order db p1 [] 0 "pending" d1).1
          < (create_order (applyEvents (create_order db p1 [] 0 "pending"
              d1).2 es) p2 [] 0 "pending" d2).1)
  ∧ (∀ (db : DB) (d : Nat) (p : String),
        (∀ o ∈ db.orders, o.created_day < d) → db.orders ≠ [] →
        0 < (delete_all_orders_up_to_date db d).1
        ∧ (create_order (delete_all_orders_up_to_date db d).2 p [] 0
            "pending" d).1 = 1) := by
  constructor
  · intro db es p1 p2 d1 d2
    have h3 : nextOrderId db
        ≤ (applyEvents (create_order db p1 [] 0 "pending" d1).2 es).seq := by
      rw [show nextOrderId db
            = (create_order db p1 [] 0 "pending" d1).2.seq from rfl]
      exact seq_le_applyEvents _ es
    calc (create_order db p1 [] 0 "pending" d1).1
        = nextOrderId db := fst_create_order db p1 [] 0 "pending" d1
      _ ≤ (applyEvents (create_order db p1 [] 0 "pending" d1).2 es).seq := h3
      _ < nextOrderId
            (applyEvents (create_order db p1 [] 0 "pending" d1).2 es) :=
          seq_lt_nextOrderId _
      _ = (create_order (applyEvents (create_order db p1 [] 0 "pending"
            d1).2 es) p2 [] 0 "pending" d2).1 :=
          (fst_create_order _ p2 [] 0 "pending" d2).symm
  · intro db d p hall hne
    have hfilterT : (db.orders.filter fun o => o.created_day < d)
        = db.orders := by
      apply List.filter_eq_self.mpr
      intro o ho
      simpa using hall o ho
    have hfilterF : (db.orders.filter
        fun o => !(o.created_day < d : Bool)) = [] := by
      apply List.filter_eq_nil_iff.mpr
      intro o ho
      simp [hall o ho]
    have hdel : (delete_all_orders_up_to_date db d).1
        = db.orders.length := by
      rw [show (delete_all_orders_up_to_date db d).1
            = (db.orders.filter fun o => o.created_day < d).length from rfl]
      rw [hfilterT]
    constructor
    · rw [hdel]
      exact List.length_pos.mpr hne
    · rw [fst_create_order]
      have hseq : (delete_all_orders_up_to_date db d).2.seq = 0 := by
        rw [show (delete_all_orders_up_to_date db d).2.seq
              = (if 0 < (db.orders.filter
                  fun o => o.created_day < d).length then 0 else db.seq)
              from rfl]
        rw [hfilterT, if_pos (List.length_pos.mpr hne)]
      have hords : (delete_all_orders_up_to_date db d).2.orders = [] :=
        hfilterF
      unfold nextOrderId
      rw [hseq, hords]
      rfl

theorem daily_tokens_monotone_and_reset_witness :
    ((create_order cexDB1 "a" [] 0 "pending" 0).1
      < (create_order (applyEvents (create_order cexDB1 "a" [] 0 "pending"
          0).2 [Event.webhook 7 "u1" 1 2]) "b" [] 0 "pending" 0).1)
    ∧ (0 < (delete_all_orders_up_to_date cexDB1 1).1
       ∧ (create_order (delete_all_orders_up_to_date cexDB1 1).2 "c" [] 0
           "pending" 1).1 = 1) :=
  ⟨daily_tokens_monotone_and_reset.1 cexDB1 [Event.webhook 7 "u1" 1 2]
      "a" "b" 0 0,
   daily_tokens_monotone_and_reset.2 cexDB1 1 "c" (by decide) (by decide)⟩

/-! Claim C10. -/

/-- C10 (confirmed): the pickup verification code is exactly the decimal
order id followed by the zero-padded minute and second (MMSS) of the clock
at generation time; each payment-webhook delivery stores the freshly
generated code, overwriting whatever was there; and two generations for the
same order at different minute-second instants yield different codes. -/
theorem pickup_code_deterministic_and_overwritten :
    (∀ (oid m s : Nat),
        verification_code oid m s = toString oid ++ pad2 m ++ pad2 s)
  ∧ (∀ (db : DB) (oid : Nat) (chat : String) (m s : Nat) (o : Order),
        get_order_details db oid = some o →
        (get_order_details (handle_successful_payment db oid chat m s)
            oid).bind Order.pickup_code
          = some (verification_code oid m s))
  ∧ (∀ (oid m s m2 s2 : Nat), m < 60 → s < 60 → m2 < 60 → s2 < 60 →
        (m, s) ≠ (m2, s2) →
        verification_code oid m s ≠ verification_code oid m2 s2) := by
  refine ⟨fun oid m s => rfl, ?_, ?_⟩
  · intro db oid chat m s o hf
    rw [handle_payment_row db oid chat m s o hf]
    rfl
  · intro oid m s m2 s2 hm hs hm2 hs2 hne
    exact verification_code_ne_of_time_ne oid m s m2 s2 hm hs hm2 hs2 hne

theorem pickup_code_deterministic_and_overwritten_witness :
    verification_code 7 10 6 = toString 7 ++ pad2 10 ++ pad2 6
    ∧ (get_order_details (handle_successful_payment cexDB1 7 "u1" 10 5)
        7).bind Order.pickup_code = some (verification_code 7 10 5)
    ∧ verification_code 7 10 5 ≠ verification_code 7 10 6 :=
  ⟨pickup_code_deterministic_and_overwritten.1 7 10 6,
   pickup_code_deterministic_and_overwritten.2.1 cexDB1 7 "u1" 10 5
      cexOrderPP (by decide),
   pickup_code_deterministic_and_overwritten.2.2 7 10 5 10 6 (by decide)
      (by decide) (by decide) (by decide) (by decide)⟩

end Canteen
